import Mathlib

/-!
Verification of the UnaMentis server control plane against its specification.

The development shallowly embeds two parts of the repository:

* the IdleMgr (tiered idle state manager) and the AudioBus (streaming audio
  session bus), whose implementations live outside the provided sources and
  are therefore modelled from the specification (each such definition carries
  a doc comment starting with Modelled from the spec); their unit tests under
  src/server/management/tests pin the expected behaviour;
* the latency-harness CLI (src/server/latency_harness/cli.py), embedded
  directly from the source.

Durations and timestamps are modelled as exact rationals: the Python code
compares floating-point seconds only with order relations, which the rational
order reflects faithfully on all values the claims quantify over.
-/

/-! ## IdleMgr data model -/

/-- Modelled from the spec: the five-level idle state enum of the IdleMgr
(spec 3, IdleState: one of ACTIVE, WARM, COOL, COLD, DORMANT with level 0..4). -/
inductive IdleState where
  | ACTIVE
  | WARM
  | COOL
  | COLD
  | DORMANT
deriving DecidableEq, Repr

/-- Modelled from the spec: the numeric level of an idle state (total order by
level, spec 3 and test_state_level_ordering). -/
def IdleState.level : IdleState → Nat
  | .ACTIVE => 0
  | .WARM => 1
  | .COOL => 2
  | .COLD => 3
  | .DORMANT => 4

/-- Modelled from the spec: the IdleThresholds value type, four idle durations
in seconds (spec 3). Default values follow test_default_values of
test_idle_manager.py: warm 30, cool 300, cold 1800, dormant 7200. -/
structure IdleThresholds where
  warm : ℚ := 30
  cool : ℚ := 300
  cold : ℚ := 1800
  dormant : ℚ := 7200
deriving DecidableEq, Repr

/-- Strict monotonicity invariant on thresholds (spec 3: warm < cool < cold <
dormant). -/
def IdleThresholds.monotone (t : IdleThresholds) : Prop :=
  t.warm < t.cool ∧ t.cool < t.cold ∧ t.cold < t.dormant

instance (t : IdleThresholds) : Decidable t.monotone := by
  unfold IdleThresholds.monotone; infer_instance

/-- Modelled from the spec: IdleManager._calculate_state, the target-state
computation of the monitor (spec 4.3 pseudocode):
target starts ACTIVE and each threshold check in ascending order overwrites it
when idle is at least that threshold. -/
def calculate_state (th : IdleThresholds) (idle : ℚ) : IdleState :=
  let target := IdleState.ACTIVE
  let target := if idle ≥ th.warm then IdleState.WARM else target
  let target := if idle ≥ th.cool then IdleState.COOL else target
  let target := if idle ≥ th.cold then IdleState.COLD else target
  let target := if idle ≥ th.dormant then IdleState.DORMANT else target
  target

/-- C2: for every idle duration and thresholds set, _calculate_state returns
DORMANT if idle >= dormant, else COLD if idle >= cold, else COOL if
idle >= cool, else WARM if idle >= warm, else ACTIVE; and the lower bounds are
inclusive: on monotone thresholds, _calculate_state(warm) = WARM. -/
theorem C2_calculate_state_spec (th : IdleThresholds) (idle : ℚ) :
    calculate_state th idle =
      (if idle ≥ th.dormant then IdleState.DORMANT
       else if idle ≥ th.cold then IdleState.COLD
       else if idle ≥ th.cool then IdleState.COOL
       else if idle ≥ th.warm then IdleState.WARM
       else IdleState.ACTIVE)
    ∧ (th.monotone → calculate_state th th.warm = IdleState.WARM) := by
  refine ⟨rfl, ?_⟩
  rintro ⟨h1, h2, h3⟩
  have hcasc :
      calculate_state th th.warm =
        (if th.warm ≥ th.dormant then IdleState.DORMANT
         else if th.warm ≥ th.cold then IdleState.COLD
         else if th.warm ≥ th.cool then IdleState.COOL
         else if th.warm ≥ th.warm then IdleState.WARM
         else IdleState.ACTIVE) := rfl
  rw [hcasc, if_neg (not_le.mpr ((h1.trans h2).trans h3)),
    if_neg (not_le.mpr (h1.trans h2)), if_neg (not_le.mpr h1), if_pos le_rfl]

/-- C2 witness: concrete evaluation at the thresholds {10, 60, 300, 1800} used
throughout the tests, at idle = 10 (the exact warm boundary). -/
theorem C2_calculate_state_spec_witness :
    calculate_state ⟨10, 60, 300, 1800⟩ 10 = IdleState.WARM :=
  (C2_calculate_state_spec ⟨10, 60, 300, 1800⟩ 10).2 (by decide)

/-! ## IdleMgr power modes, thresholds and transitions -/

/-- Modelled from the spec: a PowerMode record (spec 3: id, name, description,
thresholds, enabled, builtin flag; the id is the registry key). -/
structure PowerMode where
  name : String
  description : String
  thresholds : IdleThresholds
  enabled : Bool
deriving DecidableEq, Repr

/-- Modelled from the spec: the ids of the built-in power modes (spec 4.3:
performance (disabled), balanced, power_saver, development, presentation;
pinned by test_all_builtin_modes_exist). -/
def builtin_mode_ids : List String :=
  ["performance", "balanced", "power_saver", "development", "presentation"]

/-- Modelled from the spec: the balanced built-in mode, the default mode the
manager starts in and falls back to (thresholds are the defaults of
test_default_values; enabled per test_balanced_mode_enabled). -/
def balanced_mode : PowerMode :=
  { name := "Balanced", description := "Default balanced idle management",
    thresholds := {}, enabled := true }

/-- Modelled from the spec: one IdleTransition history entry (spec 3: from, to,
trigger recorded at each state transition). -/
structure TransitionRecord where
  from_state : IdleState
  to_state : IdleState
  trigger : String
deriving DecidableEq, Repr

/-- Modelled from the spec: the mutable state of an IdleManager instance that
the claims touch: current state, current mode id, active thresholds, enabled
flag, the user-defined part of the POWER_MODES registry (keyed by profile id;
built-ins are recognised by id, mirroring the membership test against
BUILTIN_POWER_MODES in the profile operations), and the transition history. -/
structure IdleManagerState where
  current_state : IdleState := .ACTIVE
  current_mode : String := "balanced"
  thresholds : IdleThresholds := {}
  enabled : Bool := true
  power_modes : List (String × PowerMode) := []
  transition_history : List TransitionRecord := []
deriving DecidableEq, Repr

/-- Modelled from the spec: IdleManager.create_profile. Built-ins are
immutable (test_create_profile_cannot_overwrite_builtin): a built-in id is
rejected with False and no registry change; otherwise the profile is stored
under the id and True is returned. -/
def create_profile (s : IdleManagerState) (profile_id name description : String)
    (thresholds : IdleThresholds) : Bool × IdleManagerState :=
  if profile_id ∈ builtin_mode_ids then (false, s)
  else
    (true,
      { s with
          power_modes :=
            (profile_id, ⟨name, description, thresholds, true⟩) ::
              s.power_modes.filter (fun p => p.1 ≠ profile_id) })

/-- Modelled from the spec: IdleManager.update_profile. A built-in id is
rejected with False (test_update_profile_cannot_modify_builtin); an unknown id
returns False; otherwise the optional fields are merged into the stored
profile and True is returned. -/
def update_profile (s : IdleManagerState) (profile_id : String)
    (new_name new_description : Option String)
    (new_thresholds : Option IdleThresholds) : Bool × IdleManagerState :=
  if profile_id ∈ builtin_mode_ids then (false, s)
  else
    match s.power_modes.lookup profile_id with
    | none => (false, s)
    | some pm =>
        (true,
          { s with
              power_modes :=
                (profile_id,
                  { pm with
                      name := new_name.getD pm.name,
                      description := new_description.getD pm.description,
                      thresholds := new_thresholds.getD pm.thresholds }) ::
                  s.power_modes.filter (fun p => p.1 ≠ profile_id) })

/-- Modelled from the spec: IdleManager.delete_profile. A built-in id is
rejected with False (test_delete_profile_cannot_delete_builtin); an unknown id
returns False; otherwise the profile is removed and, when it was the current
mode, the manager switches to the balanced mode
(test_delete_profile_switches_mode_if_current; spec 4.3: deleting the active
profile switches to balanced). -/
def delete_profile (s : IdleManagerState) (profile_id : String) :
    Bool × IdleManagerState :=
  if profile_id ∈ builtin_mode_ids then (false, s)
  else if (s.power_modes.lookup profile_id).isNone then (false, s)
  else if s.current_mode = profile_id then
    (true,
      { s with
          power_modes := s.power_modes.filter (fun p => p.1 ≠ profile_id),
          current_mode := "balanced",
          thresholds := balanced_mode.thresholds,
          enabled := balanced_mode.enabled })
  else
    (true,
      { s with
          power_modes := s.power_modes.filter (fun p => p.1 ≠ profile_id) })

/-- C5: built-in power modes are immutable: create_profile, update_profile and
delete_profile targeting a built-in id return False and leave the whole state
(in particular the POWER_MODES registry) unchanged; and deleting the custom
profile that is the current mode succeeds and switches current_mode to
balanced. -/
theorem C5_builtin_modes_immutable (s : IdleManagerState)
    (id name description : String) (th : IdleThresholds)
    (nn nd : Option String) (nth : Option IdleThresholds) :
    (id ∈ builtin_mode_ids →
      create_profile s id name description th = (false, s) ∧
      update_profile s id nn nd nth = (false, s) ∧
      delete_profile s id = (false, s)) ∧
    (id ∉ builtin_mode_ids →
      (s.power_modes.lookup id).isSome = true →
      s.current_mode = id →
      (delete_profile s id).1 = true ∧
      (delete_profile s id).2.current_mode = "balanced") := by
  constructor
  · intro hb
    refine ⟨?_, ?_, ?_⟩ <;>
      simp [create_profile, update_profile, delete_profile, hb]
  · intro hnb hsome hcur
    have hnone : (s.power_modes.lookup id).isNone = false := by
      rw [Option.isNone_eq_false_iff]
      exact hsome
    simp [delete_profile, hnb, hnone, hcur]

/-- C5 witness: a manager whose current mode is the custom profile my_profile;
mutations against the built-in balanced id are rejected without change, and
deleting my_profile switches the mode to balanced. -/
theorem C5_builtin_modes_immutable_witness :
    (create_profile
        { current_mode := "my_profile",
          power_modes := [("my_profile", balanced_mode)] }
        "balanced" "My Balanced" "Override" {} =
      (false,
        { current_mode := "my_profile",
          power_modes := [("my_profile", balanced_mode)] }) ∧
      update_profile
        { current_mode := "my_profile",
          power_modes := [("my_profile", balanced_mode)] }
        "balanced" (some "New Name") none none =
      (false,
        { current_mode := "my_profile",
          power_modes := [("my_profile", balanced_mode)] }) ∧
      delete_profile
        { current_mode := "my_profile",
          power_modes := [("my_profile", balanced_mode)] }
        "balanced" =
      (false,
        { current_mode := "my_profile",
          power_modes := [("my_profile", balanced_mode)] })) ∧
    ((delete_profile
        { current_mode := "my_profile",
          power_modes := [("my_profile", balanced_mode)] }
        "my_profile").1 = true ∧
      (delete_profile
        { current_mode := "my_profile",
          power_modes := [("my_profile", balanced_mode)] }
        "my_profile").2.current_mode = "balanced") :=
  ⟨(C5_builtin_modes_immutable
      { current_mode := "my_profile",
        power_modes := [("my_profile", balanced_mode)] }
      "balanced" "My Balanced" "Override" {} (some "New Name") none none).1
    (by decide),
   (C5_builtin_modes_immutable
      { current_mode := "my_profile",
        power_modes := [("my_profile", balanced_mode)] }
      "my_profile" "x" "y" {} none none none).2
    (by decide) (by decide) (by decide)⟩

/-- Modelled from the spec: the dict argument of IdleManager.set_thresholds,
each key optional (test_set_custom_thresholds supplies only warm and cool). -/
structure ThresholdUpdate where
  warm : Option ℚ := none
  cool : Option ℚ := none
  cold : Option ℚ := none
  dormant : Option ℚ := none
deriving DecidableEq, Repr

/-- Modelled from the spec: merge of supplied threshold values over the
current thresholds (spec 4.3: supplied values merged over current). -/
def mergeThresholds (cur : IdleThresholds) (u : ThresholdUpdate) :
    IdleThresholds :=
  { warm := u.warm.getD cur.warm,
    cool := u.cool.getD cur.cool,
    cold := u.cold.getD cur.cold,
    dormant := u.dormant.getD cur.dormant }

/-- Modelled from the spec: IdleManager.set_thresholds (spec 4.3): switches to
the implicit mode custom with the supplied values merged over the current
thresholds, and rejects the call, leaving the state unchanged, when the merged
thresholds violate the strict monotonicity warm < cool < cold < dormant. -/
def set_thresholds (s : IdleManagerState) (u : ThresholdUpdate) :
    Bool × IdleManagerState :=
  let merged := mergeThresholds s.thresholds u
  if merged.monotone then
    (true, { s with thresholds := merged, current_mode := "custom" })
  else (false, s)

/-- C6: set_thresholds merges the supplied values over the current thresholds
and switches current_mode to custom; the call is rejected with the state left
unchanged exactly when the merged thresholds violate strict monotonicity. -/
theorem C6_set_thresholds_spec (s : IdleManagerState) (u : ThresholdUpdate) :
    ((mergeThresholds s.thresholds u).monotone →
      set_thresholds s u =
        (true,
          { s with
              thresholds := mergeThresholds s.thresholds u,
              current_mode := "custom" })) ∧
    (¬ (mergeThresholds s.thresholds u).monotone →
      set_thresholds s u = (false, s)) := by
  constructor
  · intro h
    simp only [set_thresholds]
    rw [if_pos h]
  · intro h
    simp only [set_thresholds]
    rw [if_neg h]

/-- C6 witness: merging warm 5 and cool 30 over the default thresholds
(30, 300, 1800, 7200) is monotone and accepted, switching the mode to custom
as in test_set_custom_thresholds; merging warm 5000 alone breaks monotonicity
and is rejected without any change. -/
theorem C6_set_thresholds_spec_witness :
    set_thresholds {} { warm := some 5, cool := some 30 } =
      (true,
        { ({} : IdleManagerState) with
            thresholds := mergeThresholds ({} : IdleManagerState).thresholds
              { warm := some 5, cool := some 30 },
            current_mode := "custom" }) ∧
    set_thresholds {} { warm := some 5000 } = (false, {}) :=
  ⟨(C6_set_thresholds_spec {} { warm := some 5, cool := some 30 }).1
      (by decide),
   (C6_set_thresholds_spec {} { warm := some 5000 }).2 (by decide)⟩

/-- Modelled from the spec: IdleManager._transition_to. Handlers are modelled
as opaque identifiers; the call returns the new state together with the list
of handler identifiers invoked (per-state handlers of the target state, then
the global handlers, spec 4.3). A transition to the current state is a no-op:
no history entry and no handler invocation
(test_transition_noop_if_same_state); otherwise the current state becomes the
target and exactly one history entry recording the old state, the target and
the trigger is appended (test_transition_to_records_history). -/
def transition_to (s : IdleManagerState) (stateHandlers : IdleState → List Nat)
    (globalHandlers : List Nat) (target : IdleState) (trigger : String) :
    IdleManagerState × List Nat :=
  if target = s.current_state then (s, [])
  else
    ({ s with
         current_state := target,
         transition_history :=
           s.transition_history ++ [⟨s.current_state, target, trigger⟩] },
      stateHandlers target ++ globalHandlers)

/-- C7: _transition_to with a target equal to the current state performs no
transition (state unchanged, no handler invoked, no history entry); a
transition to a different state appends exactly one history entry recording
the old state, the target and the trigger; consequently every recorded
transition has from_state different from to_state. -/
theorem C7_transition_history_spec (s : IdleManagerState)
    (sh : IdleState → List Nat) (gh : List Nat) (target : IdleState)
    (trigger : String) :
    (target = s.current_state →
      transition_to s sh gh target trigger = (s, [])) ∧
    (target ≠ s.current_state →
      (transition_to s sh gh target trigger).1.transition_history =
        s.transition_history ++ [⟨s.current_state, target, trigger⟩] ∧
      (transition_to s sh gh target trigger).2 = sh target ++ gh) ∧
    ((∀ r ∈ s.transition_history, r.from_state ≠ r.to_state) →
      ∀ r ∈ (transition_to s sh gh target trigger).1.transition_history,
        r.from_state ≠ r.to_state) := by
  refine ⟨fun h => ?_, fun h => ?_, fun hinv r hr => ?_⟩
  · simp [transition_to, h]
  · constructor <;> simp [transition_to, h]
  · by_cases h : target = s.current_state
    · simp only [transition_to, if_pos h] at hr
      exact hinv r hr
    · simp only [transition_to, if_neg h, List.mem_append,
        List.mem_singleton] at hr
      rcases hr with hr | hr
      · exact hinv r hr
      · subst hr
        exact fun he => h he.symm

/-- C7 witness: from the initial state (ACTIVE), a transition to WARM with
trigger timeout appends exactly the record (ACTIVE, WARM, timeout) and fires
the WARM handler list, a transition to ACTIVE is a complete no-op, and the
resulting history only holds records with distinct from and to states. -/
theorem C7_transition_history_spec_witness :
    transition_to {} (fun _ => [7]) [9] IdleState.ACTIVE "timeout" =
      ({}, []) ∧
    ((transition_to {} (fun _ => [7]) [9] IdleState.WARM
        "timeout").1.transition_history =
      [] ++ [⟨IdleState.ACTIVE, IdleState.WARM, "timeout"⟩] ∧
     (transition_to {} (fun _ => [7]) [9] IdleState.WARM "timeout").2 =
      [7] ++ [9]) ∧
    (∀ r ∈ (transition_to {} (fun _ => [7]) [9] IdleState.WARM
        "timeout").1.transition_history,
      r.from_state ≠ r.to_state) :=
  ⟨(C7_transition_history_spec {} (fun _ => [7]) [9] IdleState.ACTIVE
      "timeout").1 (by decide),
   ((C7_transition_history_spec {} (fun _ => [7]) [9] IdleState.WARM
      "timeout").2.1 (by decide)),
   ((C7_transition_history_spec {} (fun _ => [7]) [9] IdleState.WARM
      "timeout").2.2 (by intro r hr; cases hr))⟩

/-! ## AudioBus: the request_audio handler -/

/-- Modelled from the spec: the per-session PlaybackState (spec 3: optional
curriculum and topic ids, segment_index, offset_ms, is_playing; mutated by the
AudioBus only). The segment index is an integer because the inbound message
may carry a negative value (test_handle_audio_request_negative_index). -/
structure PlaybackState where
  curriculum_id : Option String
  topic_id : Option String
  segment_index : Int
  offset_ms : Int
  is_playing : Bool
deriving DecidableEq, Repr

/-- Modelled from the spec: the slice of a UserSession the request_audio
handler reads and writes (spec 3: session_id and PlaybackState). -/
structure UserSession where
  session_id : String
  playback : PlaybackState
deriving DecidableEq, Repr

/-- Modelled from the spec: the per-topic segment table of the
AudioWebSocketHandler, mapping (curriculum_id, topic_id) to the ordered list
of text segments (spec 3, TopicSegmentTable). -/
structure AudioHandlerState where
  segments_by_topic : List ((String × String) × List String)
deriving DecidableEq, Repr

/-- Modelled from the spec: AudioWebSocketHandler.get_topic_segments, a lookup
in the per-topic segment table returning none for an unknown topic
(test_get_topic_segments_not_found). -/
def get_topic_segments (h : AudioHandlerState) (curriculum_id topic_id : String) :
    Option (List String) :=
  (h.segments_by_topic.lookup (curriculum_id, topic_id))

/-- Modelled from the spec: the result of the session cache audio fetch for a
segment text (audio bytes as base64, cache-hit flag, duration in seconds). -/
structure FetchResult where
  audio_base64 : String
  cache_hit : Bool
  duration_seconds : ℚ
deriving DecidableEq, Repr

/-- Modelled from the spec: one outbound AudioBus message, restricted to the
two kinds the request_audio handler can emit: an audio frame
{segment_index, audio_base64, duration_seconds, total_segments, cache_hit} or
an error frame with a textual error field (spec 4.4). -/
inductive OutMsg where
  | audio (segment_index : Int) (audio_base64 : String)
      (duration_seconds : ℚ) (total_segments : Nat) (cache_hit : Bool)
  | errorMsg (error : String)
deriving DecidableEq, Repr

/-- Discriminator for error frames. -/
def OutMsg.isError : OutMsg → Bool
  | .errorMsg _ => true
  | _ => false

/-- Modelled from the spec: AudioWebSocketHandler._handle_audio_request.
The session cache is abstracted as a function from segment text to an
optional FetchResult (none models a failed audio generation, which the
handler reports as an error frame, spec 4.4 error responses and
test_handle_audio_request_generation_error; per spec 5 the message fails
atomically, so playback is not updated in that case). The checks follow the
order pinned by the tests: a session without a bound topic yields an error
naming curriculum_id; a topic with no registered segments yields the
No segments found error; a segment_index outside [0, total_segments) yields
the Invalid segment_index error; otherwise the audio is fetched, playback is
updated to (segment_index, 0, playing=true) and a single audio frame carrying
the requested index and the segment-table length is sent. The handler returns
the single outbound message together with the updated session. -/
def handle_audio_request (h : AudioHandlerState) (s : UserSession)
    (segment_index : Int) (fetch : String → Option FetchResult) :
    OutMsg × UserSession :=
  match s.playback.curriculum_id, s.playback.topic_id with
  | some c, some t =>
      match get_topic_segments h c t with
      | none => (.errorMsg "No segments found for topic", s)
      | some segs =>
          if 0 ≤ segment_index ∧ segment_index < segs.length then
            match fetch (segs.getD segment_index.toNat "") with
            | none => (.errorMsg "Failed to get audio", s)
            | some r =>
                (.audio segment_index r.audio_base64 r.duration_seconds
                    segs.length r.cache_hit,
                  { s with playback :=
                      { s.playback with
                          segment_index := segment_index,
                          offset_ms := 0,
                          is_playing := true } })
          else (.errorMsg "Invalid segment_index", s)
  | _, _ => (.errorMsg "No curriculum_id or topic_id set", s)

/-- C1 counterexample: a session with a bound topic, a registered three-entry
segment table and segment_index 0 (all preconditions of the claim hold), but
whose audio generation fails: the handler sends an error frame instead of the
audio frame the claim promises, leaving playback unchanged. -/
theorem C1_request_audio_counterexample :
    get_topic_segments ⟨[(("c", "t"), ["sa", "sb", "sc"])]⟩ "c" "t" =
      some ["sa", "sb", "sc"] ∧
    ((0 : Int) ≤ 0 ∧ (0 : Int) < (3 : Nat)) ∧
    (handle_audio_request ⟨[(("c", "t"), ["sa", "sb", "sc"])]⟩
        ⟨"sess", ⟨some "c", some "t", 0, 0, false⟩⟩ 0 (fun _ => none)).1 =
      OutMsg.errorMsg "Failed to get audio" ∧
    (handle_audio_request ⟨[(("c", "t"), ["sa", "sb", "sc"])]⟩
        ⟨"sess", ⟨some "c", some "t", 0, 0, false⟩⟩ 0 (fun _ => none)).2 =
      ⟨"sess", ⟨some "c", some "t", 0, 0, false⟩⟩ := by
  decide

/-- C1 (amended): if the session has a bound topic, a segment table exists for
that topic, 0 <= segment_index < total_segments and the audio generation for
the requested segment succeeds, the handler sends exactly one audio frame
whose segment_index is the requested index and whose total_segments is the
length of the segment table, and updates playback to (segment_index, 0,
playing=true); if any precondition fails (no bound topic, no segments for the
topic, segment_index out of range) the handler sends exactly one error frame
in lieu of the ack and leaves playback unchanged. -/
theorem C1_request_audio_spec (h : AudioHandlerState) (s : UserSession)
    (idx : Int) (fetch : String → Option FetchResult) (c t : String)
    (segs : List String) (r : FetchResult) :
    (s.playback.curriculum_id = some c → s.playback.topic_id = some t →
      get_topic_segments h c t = some segs →
      0 ≤ idx → idx < (segs.length : Int) →
      fetch (segs.getD idx.toNat "") = some r →
      handle_audio_request h s idx fetch =
        (OutMsg.audio idx r.audio_base64 r.duration_seconds segs.length
            r.cache_hit,
          { s with playback :=
              { s.playback with
                  segment_index := idx, offset_ms := 0,
                  is_playing := true } })) ∧
    ((s.playback.curriculum_id = none ∨ s.playback.topic_id = none) →
      (handle_audio_request h s idx fetch).1.isError = true ∧
      (handle_audio_request h s idx fetch).2 = s) ∧
    (s.playback.curriculum_id = some c → s.playback.topic_id = some t →
      get_topic_segments h c t = none →
      (handle_audio_request h s idx fetch).1 =
        OutMsg.errorMsg "No segments found for topic" ∧
      (handle_audio_request h s idx fetch).2 = s) ∧
    (s.playback.curriculum_id = some c → s.playback.topic_id = some t →
      get_topic_segments h c t = some segs →
      (idx < 0 ∨ (segs.length : Int) ≤ idx) →
      (handle_audio_request h s idx fetch).1 =
        OutMsg.errorMsg "Invalid segment_index" ∧
      (handle_audio_request h s idx fetch).2 = s) := by
  refine ⟨?_, ?_, ?_, ?_⟩
  · intro hc ht hseg h0 hlen hf
    simp only [handle_audio_request, hc, ht, hseg]
    rw [if_pos ⟨h0, hlen⟩, hf]
  · intro hmiss
    rcases hmiss with hc | ht
    · rcases htv : s.playback.topic_id with _ | t2 <;>
        simp [handle_audio_request, hc, htv, OutMsg.isError]
    · rcases hcv : s.playback.curriculum_id with _ | c2 <;>
        simp [handle_audio_request, ht, hcv, OutMsg.isError]
  · intro hc ht hseg
    constructor <;> simp [handle_audio_request, hc, ht, hseg]
  · intro hc ht hseg hbad
    have hcond : ¬ (0 ≤ idx ∧ idx < (segs.length : Int)) := by
      rcases hbad with hb | hb
      · exact fun hc2 => absurd hc2.1 (not_le.mpr hb)
      · exact fun hc2 => absurd hc2.2 (not_lt.mpr hb)
    constructor <;> simp [handle_audio_request, hc, ht, hseg, hcond]

/-- C1 witness: successful request for segment 0 on a bound topic with three
registered segments and a succeeding audio fetch; the single outbound frame is
an audio frame with segment_index 0 and total_segments 3, and playback becomes
(0, 0, playing=true). -/
theorem C1_request_audio_spec_witness :
    handle_audio_request ⟨[(("c", "t"), ["sa", "sb", "sc"])]⟩
        ⟨"sess", ⟨some "c", some "t", 2, 500, false⟩⟩ 0
        (fun _ => some ⟨"QUJD", true, 5 / 2⟩) =
      (OutMsg.audio 0 "QUJD" (5 / 2) 3 true,
        ⟨"sess", ⟨some "c", some "t", 0, 0, true⟩⟩) :=
  (C1_request_audio_spec ⟨[(("c", "t"), ["sa", "sb", "sc"])]⟩
      ⟨"sess", ⟨some "c", some "t", 2, 500, false⟩⟩ 0
      (fun _ => some ⟨"QUJD", true, 5 / 2⟩) "c" "t" ["sa", "sb", "sc"]
      ⟨"QUJD", true, 5 / 2⟩).1
    rfl rfl (by decide) (by decide) (by decide) rfl

/-! ## Latency-harness CLI (embedded from src/server/latency_harness/cli.py) -/

/-- Modelled from the spec: the RunStatus enum of the latency harness
(spec 4.1: PENDING, RUNNING, COMPLETED, FAILED, CANCELLED); cli.py reads the
RUNNING, FAILED and CANCELLED values. -/
inductive RunStatus where
  | PENDING
  | RUNNING
  | COMPLETED
  | FAILED
  | CANCELLED
deriving DecidableEq, Repr

/-- Embeds the exception classes distinguished by the try block of main
(cli.py lines 392-400): TimeoutError, ValueError, and every other exception
(the generic Exception handler, which also receives RuntimeError). -/
inductive CliErr where
  | timeoutErr
  | valueErr
  | otherErr
deriving DecidableEq, Repr

/-- Embeds the exit-code assignment of the exception handlers of main
(cli.py lines 392-400): 2 for TimeoutError, 1 for ValueError and for any
other exception. -/
def excExitCode : CliErr → Nat
  | .timeoutErr => 2
  | .valueErr => 1
  | .otherErr => 1

/-- Embeds which exception each failure inside run_test raises (cli.py lines
99-100 and 140-144): a missing suite raises ValueError; a run ending FAILED
or CANCELLED raises RuntimeError, which only the generic Exception handler
catches. -/
inductive RunFailure where
  | suiteNotFound
  | runFailed
  | runCancelled
deriving DecidableEq, Repr

/-- Embeds the exception class raised for each RunFailure. -/
def failureErr : RunFailure → CliErr
  | .suiteNotFound => .valueErr
  | .runFailed => .otherErr
  | .runCancelled => .otherErr

/-- Embeds the success-rate computation of run_test (cli.py lines 163-166):
successful_tests / total_tests * 100 when total_tests > 0, else 0. -/
def successRate (successful total : Nat) : ℚ :=
  if 0 < total then (successful : ℚ) / (total : ℚ) * 100 else 0

/-- Embeds one entry of report.regressions as serialised by check_regression
(cli.py lines 208-218). -/
structure RegressionRecord where
  config_id : String
  metric : String
  baseline_value : ℚ
  current_value : ℚ
  change_percent : ℚ
  severity : String
deriving DecidableEq, Repr

/-- Embeds has_regressions of check_regression (cli.py line 199):
len(report.regressions) > 0. -/
def check_has_regressions (regressions : List RegressionRecord) : Bool :=
  decide (0 < regressions.length)

/-- Embeds the exit-code accumulation inside the try block of main (cli.py
lines 295, 381-382 and 384-387): exit_code starts at 0; it is set to 1 when a
baseline was given, fail-on-regression is set and the regression check
reported regressions; it is then set to 1 when ci is set and the success rate
is below 100. -/
def runExitCode (baseline failOnRegression hasRegs ci : Bool) (rate : ℚ) :
    Nat :=
  let code := 0
  let code := if baseline ∧ failOnRegression ∧ hasRegs then 1 else code
  if ci ∧ rate < 100 then 1 else code

/-- Embeds the final exit of main (cli.py line 404, sys.exit(exit_code)):
the process exit code is the in-band code of a normal completion of the try
block or the code chosen by the exception handler that fired. -/
def cliExitCode (outcome : Except CliErr Nat) : Nat :=
  match outcome with
  | .ok code => code
  | .error e => excExitCode e

/-- C3: the process exit code is 2 exactly on TimeoutError, 1 on every other
error (suite not found raises ValueError; FAILED or CANCELLED runs raise
RuntimeError, caught by the generic handler; the CI and fail-on-regression
gates set 1 in band), 0 on success, and no other exit codes occur. -/
theorem C3_exit_codes (b f hr ci : Bool) (rate : ℚ) (e : CliErr)
    (rf : RunFailure) :
    cliExitCode (.error .timeoutErr) = 2 ∧
    (excExitCode e = 2 ↔ e = .timeoutErr) ∧
    cliExitCode (.error (failureErr rf)) = 1 ∧
    (runExitCode b f hr ci rate = 0 ∨ runExitCode b f hr ci rate = 1) ∧
    (b = true → f = true → hr = true → runExitCode b f hr ci rate = 1) ∧
    (ci = true → rate < 100 → runExitCode b f hr ci rate = 1) ∧
    (¬ (b = true ∧ f = true ∧ hr = true) → ¬ (ci = true ∧ rate < 100) →
      cliExitCode (.ok (runExitCode b f hr ci rate)) = 0) := by
  refine ⟨rfl, ?_, ?_, ?_, ?_, ?_, ?_⟩
  · cases e <;> simp [excExitCode]
  · cases rf <;> rfl
  · simp only [runExitCode]
    split_ifs <;> simp
  · intro hb hf hhr
    subst hb; subst hf; subst hhr
    simp [runExitCode]
  · intro hci hrate
    simp [runExitCode, hci, hrate]
  · intro hreg hci
    simp [cliExitCode, runExitCode, hreg, hci]

/-- C3 witness: a CI-gated run with success rate 50 exits 1, an ungated clean
run exits 0, the regression gate exits 1, and a timeout exits 2. -/
theorem C3_exit_codes_witness :
    cliExitCode (.error .timeoutErr) = 2 ∧
    (excExitCode .valueErr = 2 ↔ (CliErr.valueErr = .timeoutErr)) ∧
    cliExitCode (.error (failureErr .runFailed)) = 1 ∧
    (runExitCode true true true true 50 = 0 ∨
      runExitCode true true true true 50 = 1) ∧
    runExitCode true true true true 50 = 1 ∧
    runExitCode false false false true 50 = 1 ∧
    cliExitCode (.ok (runExitCode false false false false 100)) = 0 :=
  ⟨(C3_exit_codes true true true true 50 .valueErr .runFailed).1,
   (C3_exit_codes true true true true 50 .valueErr .runFailed).2.1,
   (C3_exit_codes true true true true 50 .valueErr .runFailed).2.2.1,
   (C3_exit_codes true true true true 50 .valueErr .runFailed).2.2.2.1,
   (C3_exit_codes true true true true 50 .valueErr
      .runFailed).2.2.2.2.1 rfl rfl rfl,
   (C3_exit_codes false false false true 50 .valueErr
      .runFailed).2.2.2.2.2.1 rfl (by decide),
   (C3_exit_codes false false false false 100 .valueErr
      .runFailed).2.2.2.2.2.2 (by decide) (by decide)⟩

/-- C8: under a baseline with fail-on-regression set (and the CI gate not
firing), the exit code of a normally completing run is non-zero exactly when
the analyzer reported at least one regression, and has_regressions is true
exactly when the regressions list is non-empty. -/
theorem C8_fail_on_regression (regs : List RegressionRecord) (ci : Bool)
    (rate : ℚ) (hci : ¬ (ci = true ∧ rate < 100)) :
    (check_has_regressions regs = true ↔ regs ≠ []) ∧
    (runExitCode true true (check_has_regressions regs) ci rate ≠ 0 ↔
      regs ≠ []) := by
  have hhr : check_has_regressions regs = true ↔ regs ≠ [] := by
    simp [check_has_regressions, List.length_pos]
  refine ⟨hhr, ?_⟩
  by_cases hre : regs = []
  · subst hre
    have hfalse : check_has_regressions ([] : List RegressionRecord) = false :=
      by decide
    simp [runExitCode, hci, hfalse]
  · have : check_has_regressions regs = true := hhr.mpr hre
    simp [runExitCode, hci, this, hre]

/-- C8 witness: with one severe regression the gated exit code is non-zero;
the CI gate is off and the rate is 100. -/
theorem C8_fail_on_regression_witness :
    (check_has_regressions [⟨"cfg", "median_e2e_ms", 400, 600, 50, "severe"⟩] =
        true ↔
      ([⟨"cfg", "median_e2e_ms", 400, 600, 50, "severe"⟩] :
        List RegressionRecord) ≠ []) ∧
    (runExitCode true true
        (check_has_regressions
          [⟨"cfg", "median_e2e_ms", 400, 600, 50, "severe"⟩]) false 100 ≠ 0 ↔
      ([⟨"cfg", "median_e2e_ms", 400, 600, 50, "severe"⟩] :
        List RegressionRecord) ≠ []) :=
  C8_fail_on_regression [⟨"cfg", "median_e2e_ms", 400, 600, 50, "severe"⟩]
    false 100 (by decide)

/-- C9: under the CI flag, when the run reaches the reporting stage (and the
fail-on-regression gate does not fire), the exit code is non-zero exactly
when the success rate is strictly below 100, and the success rate is
successful_tests / total_tests * 100. -/
theorem C9_ci_gate (successful total : Nat) (b f hr : Bool)
    (hng : ¬ (b = true ∧ f = true ∧ hr = true)) (ht : 0 < total) :
    (runExitCode b f hr true (successRate successful total) ≠ 0 ↔
      successRate successful total < 100) ∧
    successRate successful total = (successful : ℚ) / (total : ℚ) * 100 := by
  constructor
  · simp only [runExitCode, if_neg hng]
    by_cases hrl : successRate successful total < 100
    · simp [hrl]
    · simp [hrl]
  · simp [successRate, ht]

/-- C9 witness: one success out of two tests gives rate 50, and the CI gate
makes the exit code non-zero. -/
theorem C9_ci_gate_witness :
    (runExitCode false false false true (successRate 1 2) ≠ 0 ↔
      successRate 1 2 < 100) ∧
    successRate 1 2 = (1 : ℚ) / (2 : ℚ) * 100 :=
  C9_ci_gate 1 2 false false false (by decide) (by decide)

/-- Embeds the argparse default of --mock (cli.py lines 246-251): store_true
with default True, so the parsed value is True whether or not the flag is
passed. -/
def mock_default : Bool := true

/-- Embeds argparse parsing of --mock: store_true over mock_default. -/
def parsed_mock (mockFlagPresent : Bool) : Bool :=
  if mockFlagPresent then true else mock_default

/-- Embeds argparse parsing of --no-mock (cli.py lines 252-256): store_true
with the implicit default False. -/
def parsed_no_mock (noMockFlagPresent : Bool) : Bool :=
  if noMockFlagPresent then true else false

/-- Embeds use_mock of main (cli.py line 325): args.mock and not
args.no_mock. -/
def use_mock (mockFlagPresent noMockFlagPresent : Bool) : Bool :=
  parsed_mock mockFlagPresent && !(parsed_no_mock noMockFlagPresent)

/-- Embeds the client registration of run_test (cli.py lines 102-117): the
synthetic client cli_mock_client is registered exactly when use_mock is
set. -/
def registered_clients (useMockArg : Bool) : List String :=
  if useMockArg then ["cli_mock_client"] else []

/-- C10: the --mock flag is inert: because its argparse default is True,
use_mock equals not args.no_mock for every combination of the two flags, so
passing --mock explicitly never changes which clients are registered, and the
mock client is registered exactly when --no-mock is absent. -/
theorem C10_mock_flag_inert (m nm : Bool) :
    use_mock m nm = !nm ∧
    use_mock true nm = use_mock false nm ∧
    ("cli_mock_client" ∈ registered_clients (use_mock m nm) ↔
      parsed_no_mock nm = false) := by
  cases m <;> cases nm <;> refine ⟨rfl, rfl, ?_⟩ <;>
    simp [use_mock, parsed_mock, parsed_no_mock, mock_default,
      registered_clients]

/-- Embeds the possible outcomes of the completion-wait loop of run_test
(cli.py lines 124-135): timedOut models the branch that calls
orchestrator.cancel_run and raises TimeoutError; finished models leaving the
loop because the run status is no longer RUNNING; exhausted is returned when
the observation trace is too short to decide the loop. -/
inductive WaitOutcome where
  | timedOut
  | finished (status : RunStatus)
  | exhausted
deriving DecidableEq, Repr

/-- Embeds the completion-wait loop of run_test (cli.py lines 124-135),
driven by a trace of iterations: entry i carries the elapsed wall-clock
seconds computed at the top of iteration i and the run status re-fetched at
the end of iteration i. While the status is RUNNING, an iteration whose
elapsed strictly exceeds the timeout cancels the run and raises TimeoutError
(outcome timedOut); as soon as the status is not RUNNING the loop exits with
that status (outcome finished). -/
def wait_loop (timeout : ℚ) : RunStatus → List (ℚ × RunStatus) → WaitOutcome
  | status, [] =>
      if status = RunStatus.RUNNING then .exhausted else .finished status
  | status, (elapsed, next) :: rest =>
      if status = RunStatus.RUNNING then
        if elapsed > timeout then .timedOut
        else wait_loop timeout next rest
      else .finished status

/-- Status observed at the top of loop iteration i: the initial status for
i = 0, afterwards the status fetched at the end of iteration i - 1. -/
def status_at (status0 : RunStatus) (trace : List (ℚ × RunStatus)) :
    Nat → RunStatus
  | 0 => status0
  | n + 1 => (trace.getD n (0, RunStatus.RUNNING)).2

theorem status_at_cons_succ (st n2 : RunStatus) (e : ℚ)
    (rest : List (ℚ × RunStatus)) (i : Nat) :
    status_at st ((e, n2) :: rest) (i + 1) = status_at n2 rest i := by
  cases i with
  | zero => rfl
  | succ j => rfl

/-- C4: the completion-wait loop cancels the run and raises TimeoutError
(exit code 2) exactly when it reaches an iteration at which the run is still
RUNNING and the elapsed wall clock strictly exceeds the timeout, every
earlier iteration having observed RUNNING within the timeout; a run that
leaves RUNNING within the timeout is never cancelled by the timeout path:
the loop then exits with the observed non-RUNNING status. -/
theorem C4_run_timeout_spec (T : ℚ) (st : RunStatus)
    (trace : List (ℚ × RunStatus)) :
    (wait_loop T st trace = .timedOut ↔
      ∃ k, k < trace.length ∧
        (∀ i, i ≤ k → status_at st trace i = RunStatus.RUNNING) ∧
        (∀ i, i < k → (trace.getD i (0, RunStatus.RUNNING)).1 ≤ T) ∧
        T < (trace.getD k (0, RunStatus.RUNNING)).1) ∧
    (∀ s, wait_loop T st trace = .finished s → s ≠ RunStatus.RUNNING) ∧
    cliExitCode (.error .timeoutErr) = 2 := by
  refine ⟨?_, ?_, rfl⟩
  · induction trace generalizing st with
    | nil =>
        constructor
        · intro hw
          by_cases hst : st = RunStatus.RUNNING <;>
            simp [wait_loop, hst] at hw
        · rintro ⟨k, hk, -⟩
          exact absurd hk (Nat.not_lt_zero k)
    | cons head rest ih =>
        obtain ⟨e, nxt⟩ := head
        by_cases hst : st = RunStatus.RUNNING
        · by_cases he : e > T
          · constructor
            · intro _
              refine ⟨0, Nat.succ_pos _, ?_, ?_, ?_⟩
              · intro i hi
                have hi0 : i = 0 := Nat.le_zero.mp hi
                subst hi0
                exact hst
              · intro i hi
                exact absurd hi (Nat.not_lt_zero i)
              · simpa using he
            · intro _
              simp [wait_loop, hst, he]
          · have hred : wait_loop T st ((e, nxt) :: rest) =
                wait_loop T nxt rest := by
              simp [wait_loop, hst, he]
            rw [hred, ih nxt]
            constructor
            · rintro ⟨k, hk, hrun, hle, hgt⟩
              refine ⟨k + 1, Nat.succ_lt_succ hk, ?_, ?_, ?_⟩
              · intro i hi
                cases i with
                | zero => exact hst
                | succ j =>
                    rw [status_at_cons_succ]
                    exact hrun j (Nat.succ_le_succ_iff.mp hi)
              · intro i hi
                cases i with
                | zero => exact not_lt.mp he
                | succ j =>
                    rw [List.getD_cons_succ]
                    exact hle j (Nat.succ_lt_succ_iff.mp hi)
              · rw [List.getD_cons_succ]
                exact hgt
            · rintro ⟨k, hk, hrun, hle, hgt⟩
              cases k with
              | zero => exact absurd hgt he
              | succ k2 =>
                  refine ⟨k2, Nat.succ_lt_succ_iff.mp hk, ?_, ?_, ?_⟩
                  · intro i hi
                    have hsh := hrun (i + 1) (Nat.succ_le_succ hi)
                    rwa [status_at_cons_succ] at hsh
                  · intro i hi
                    have hsh := hle (i + 1) (Nat.succ_lt_succ hi)
                    rwa [List.getD_cons_succ] at hsh
                  · rw [List.getD_cons_succ] at hgt
                    exact hgt
        · constructor
          · intro hw
            simp [wait_loop, hst] at hw
          · rintro ⟨k, hk, hrun, -, -⟩
            exact absurd (hrun 0 (Nat.zero_le k)) hst
  · intro s
    induction trace generalizing st with
    | nil =>
        intro hw
        by_cases hst : st = RunStatus.RUNNING
        · simp [wait_loop, hst] at hw
        · simp [wait_loop, hst] at hw
          exact hw ▸ hst
    | cons head rest ih =>
        obtain ⟨e, nxt⟩ := head
        intro hw
        by_cases hst : st = RunStatus.RUNNING
        · by_cases he : e > T
          · simp [wait_loop, hst, he] at hw
          · have hred : wait_loop T st ((e, nxt) :: rest) =
                wait_loop T nxt rest := by
              simp [wait_loop, hst, he]
            rw [hred] at hw
            exact ih nxt hw
        · simp [wait_loop, hst] at hw
          exact hw ▸ hst

/-- C4 witness: with timeout 10 the loop times out on the trace where the run
stays RUNNING and elapsed reaches 11 at the second iteration, and on a trace
where the run completes at elapsed 1 the loop exits with COMPLETED, which is
not RUNNING (so the timeout path never cancels it). -/
theorem C4_run_timeout_spec_witness :
    wait_loop 10 RunStatus.RUNNING
        [(1, RunStatus.RUNNING), (11, RunStatus.RUNNING)] =
      WaitOutcome.timedOut ∧
    RunStatus.COMPLETED ≠ RunStatus.RUNNING :=
  ⟨(C4_run_timeout_spec 10 RunStatus.RUNNING
      [(1, RunStatus.RUNNING), (11, RunStatus.RUNNING)]).1.mpr
      ⟨1, by decide,
        by intro i hi; interval_cases i <;> decide,
        by intro i hi; interval_cases i; decide,
        by decide⟩,
   (C4_run_timeout_spec 10 RunStatus.RUNNING
      [(1, RunStatus.COMPLETED)]).2.1 RunStatus.COMPLETED (by decide)⟩
